import Mathlib

/-!
Verification of the aiohttp HTTP-client adapter
(`src/deepl/aiohttp_http_client.py`) as a shallow embedding in Lean 4.

Modelling conventions:
- Python dictionaries are association lists `List (String × String)` in
  insertion order; `dictSet`/`dictUpdate` replicate `dict.__setitem__`
  and `dict.update`.
- Python `None` vs present values are `Option`; Python truthiness of a
  possibly absent dictionary (`if request.files:`) is `truthyOpt`.
- The headers dictionary of a request is mutable and shared by reference
  in the Python code, so it lives in an explicit heap
  (`Heap := List (List (String × String))`) addressed by `headersRef`.
- The external aiohttp library (multipart writer, client session,
  exception hierarchy) is modelled by its observable behaviour; the
  adapter logic itself is translated line by line from the source.
- Byte strings are `List Nat`; text decoding is left to the transport
  model, which supplies both the chunk sequence and the decoded text.
-/

/-- Python dict as an association list; lookup of a key, first match. -/
def dictLookup (m : List (String × String)) (k : String) : Option String :=
  (m.find? (fun p => p.1 == k)).map (fun p => p.2)

/-- Python `d[k] = v`: replace the value of an existing key in place,
otherwise append the new pair at the end (insertion order). -/
def dictSet : List (String × String) → String → String → List (String × String)
  | [], k, v => [(k, v)]
  | (k0, v0) :: rest, k, v =>
    if k0 == k then (k, v) :: rest
    else (k0, v0) :: dictSet rest k v

/-- Python `d.update(u)`: set every pair of `u` into `d`, left to right. -/
def dictUpdate (m upd : List (String × String)) : List (String × String) :=
  upd.foldl (fun acc p => dictSet acc p.1 p.2) m

/-- Python truthiness of an optional dictionary: `None` and `{}` are falsy. -/
def truthyOpt (o : Option (List (String × String))) : Bool :=
  match o with
  | none => false
  | some l => !l.isEmpty

/-- Heap of mutable header dictionaries, addressed by index. -/
def Heap : Type := List (List (String × String))

/-- Read the headers dictionary at a reference. -/
def heapGet (h : Heap) (ref : Nat) : List (String × String) :=
  List.getD h ref []

/-- Overwrite the headers dictionary at a reference. -/
def heapSet (h : Heap) (ref : Nat) (v : List (String × String)) : Heap :=
  List.set h ref v

/-- Modelled from the spec: the generic request descriptor of
`translator_base.HttpRequest` (not under `src/`): method, URL, headers
(a mutable mapping, held by reference), optional JSON payload, optional
raw data payload (a mapping of form fields), optional file attachments
(field name to file content), a plain streaming flag, and a per-chunk
streaming callback (modelled by its presence; the chunks actually
delivered to it are reported by `send_request_async`). -/
structure HttpRequest where
  method : String
  url : String
  headersRef : Nat
  json : Option String
  data : Option (List (String × String))
  files : Option (List (String × String))
  stream : Bool
  stream_chunks : Bool

/-- One part of a multipart body: field name, optional filename token,
and content. -/
structure MultipartPart where
  name : String
  filename : Option String
  content : String
deriving DecidableEq

/-- Modelled from the spec: the external `aiohttp.MultipartWriter`, a
boundary plus the form-data parts appended to it. -/
structure MultipartWriter where
  boundary : String
  parts : List MultipartPart
deriving DecidableEq

/-- Modelled from the spec: the headers the multipart encoding process
generates, notably the content-type carrying the boundary. -/
def writerHeaders (w : MultipartWriter) : List (String × String) :=
  [("Content-Type", "multipart/form-data; boundary=" ++ w.boundary)]

def CRLF : String := "\r\n"

/-- Content-disposition line of one form-data part. -/
def partDisposition (p : MultipartPart) : String :=
  "Content-Disposition: form-data; name=\"" ++ p.name ++ "\"" ++
    (match p.filename with
     | none => ""
     | some fn => "; filename=\"" ++ fn ++ "\"")

/-- Serialization of one part between boundaries. -/
def serializePart (boundary : String) (p : MultipartPart) : String :=
  "--" ++ boundary ++ CRLF ++ partDisposition p ++ CRLF ++ CRLF ++
    p.content ++ CRLF

/-- Modelled from the spec: full serialization of the multipart body
into a byte buffer (`await self.data.write(writer)` into a `bytearray`). -/
def serializeMultipart (w : MultipartWriter) : List Nat :=
  (String.join (w.parts.map (serializePart w.boundary)) ++
    "--" ++ w.boundary ++ "--" ++ CRLF).data.map Char.toNat

/-- The body field of a prepared request: absent, a plain form mapping,
a not-yet-serialized multipart writer, or a serialized byte buffer. -/
inductive Body where
  | empty : Body
  | dict (m : List (String × String)) : Body
  | writer (w : MultipartWriter) : Body
  | buffer (b : List Nat) : Body
deriving DecidableEq

/-- Passthrough of `request.data` when no files are present. -/
def Body.ofData : Option (List (String × String)) → Body
  | none => Body.empty
  | some m => Body.dict m

/-- The form-data parts built by `AioHttpPreparedRequest.__init__` when
files are present: one part per file attachment (fixed filename token
"test.txt"), then, if the data mapping is truthy, one part per plain
data field (no filename). -/
def multipartParts (req : HttpRequest) : List MultipartPart :=
  (req.files.getD []).map
      (fun p => { name := p.1, filename := some "test.txt", content := p.2 })
    ++ (if truthyOpt req.data then
          (req.data.getD []).map
            (fun p => { name := p.1, filename := none, content := p.2 })
        else [])

/-- Structure `AioHttpPreparedRequest`: the request it was built from, the body,
the JSON payload, and the headers dictionary (same reference as the
request's: `self.headers = request.headers`). -/
structure AioHttpPreparedRequest where
  request : HttpRequest
  data : Body
  json : Option String
  headersRef : Nat

/-- Constructor `AioHttpPreparedRequest.__init__`, translated from the source: with
truthy files, build a multipart writer (boundary supplied by the
library) and clear the JSON field; otherwise pass data and JSON through
unchanged. The headers reference is copied from the request. -/
def AioHttpPreparedRequest.ofRequest (boundary : String)
    (request : HttpRequest) : AioHttpPreparedRequest :=
  if truthyOpt request.files then
    { request := request
      data := Body.writer { boundary := boundary, parts := multipartParts request }
      json := none
      headersRef := request.headersRef }
  else
    { request := request
      data := Body.ofData request.data
      json := request.json
      headersRef := request.headersRef }

/-- Method `AioHttpPreparedRequest.prepare_data_buffer`, translated from the
source: when the request has truthy files, serialize the multipart
writer into a byte buffer, merge the writer's generated headers into
the (shared, mutable) headers dictionary, and replace the body by the
buffer; otherwise do nothing. -/
def prepare_data_buffer (heap : Heap) (pr : AioHttpPreparedRequest) :
    AioHttpPreparedRequest × Heap :=
  if truthyOpt pr.request.files then
    match pr.data with
    | Body.writer w =>
        ({ pr with data := Body.buffer (serializeMultipart w) },
         heapSet heap pr.headersRef
           (dictUpdate (heapGet heap pr.headersRef) (writerHeaders w)))
    | b => ({ pr with data := b }, heap)
  else (pr, heap)

/-- Method `AioHttpHttpClient.prepare_request`: construct the prepared request
and run `prepare_data_buffer` on it. -/
def prepare_request (boundary : String) (heap : Heap)
    (request : HttpRequest) : AioHttpPreparedRequest × Heap :=
  prepare_data_buffer heap (AioHttpPreparedRequest.ofRequest boundary request)

/-- The proxy configuration as supplied at construction: Python `None`,
a single URL string, a scheme-to-URL mapping, or any other value (its
rendered type name kept for the error message). -/
inductive ProxyConfig where
  | pynone : ProxyConfig
  | str (url : String) : ProxyConfig
  | dict (m : List (String × String)) : ProxyConfig
  | other (typeName : String) : ProxyConfig
deriving DecidableEq

/-- The TLS configuration as supplied at construction: Python `None`, a
plain boolean, or a filesystem path to CA certificate material. -/
inductive SslConfig where
  | pynone : SslConfig
  | bool (b : Bool) : SslConfig
  | path (p : String) : SslConfig
deriving DecidableEq

/-- Modelled from the spec: the observable configuration of the external
`aiohttp.ClientSession` the adapter creates: whether ambient proxy
environment variables are honored (`trust_env`) and whether a custom
TLS trust context was installed on the connector. -/
structure ClientSession where
  trust_env : Bool
  customSslContext : Bool
deriving DecidableEq

/-- Structure `AioHttpHttpClient`: stored proxy and TLS configuration plus the one
long-lived session. -/
structure AioHttpHttpClient where
  proxyConf : ProxyConfig
  sslConf : SslConfig
  session : ClientSession

/-- Constructor `AioHttpHttpClient.__init__`, translated from the source: store the
configuration; build a session with a custom TLS trust context exactly
when the TLS configuration is a string path, and with
`trust_env = True if self._proxy is not None else False`. -/
def AioHttpHttpClient.init (proxy : ProxyConfig) (verify_ssl : SslConfig) :
    AioHttpHttpClient :=
  { proxyConf := proxy
    sslConf := verify_ssl
    session :=
      { trust_env := match proxy with
          | ProxyConfig.pynone => false
          | _ => true
        customSslContext := match verify_ssl with
          | SslConfig.path _ => true
          | _ => false } }

/-- Method `AioHttpHttpClient.return_proxy_url`, translated from the source: a
raw string is used directly; a dict prefers key "http", falls back to
"https", and raises `ValueError` when neither is present; any other
shape raises `ValueError`. Errors are the `ValueError` messages. -/
def return_proxy_url (c : AioHttpHttpClient) : Except String String :=
  match c.proxyConf with
  | ProxyConfig.str s => Except.ok s
  | ProxyConfig.dict m =>
      match dictLookup m "http" with
      | some u => Except.ok u
      | none =>
          match dictLookup m "https" with
          | some u => Except.ok u
          | none => Except.error "No suitable proxy scheme found!"
  | ProxyConfig.pynone =>
      Except.error
        "Invalid proxy type! Expected dict or string, got: NoneType"
  | ProxyConfig.other t =>
      Except.error ("Invalid proxy type! Expected dict or string, got: " ++ t)

/-- A Python exception as the adapter's `except` clauses see it: its
string rendering and which of the caught classes it is an instance of
(`asyncio.TimeoutError`, `aiohttp.ClientConnectionError`,
`aiohttp.ClientError`). -/
structure PyException where
  msg : String
  isTimeout : Bool
  isClientConnError : Bool
  isClientError : Bool
deriving DecidableEq

/-- Type `deepl.ConnectionException`: message plus retry-eligibility flag.
Modelled from the spec: the generic connection-failure type of the SDK
(not under `src/`). -/
structure ConnectionException where
  message : String
  should_retry : Bool
deriving DecidableEq

/-- The `except` cascade of `send_request_async`, translated from the
source: first matching clause wins. -/
def classifyException (e : PyException) : ConnectionException :=
  if e.isTimeout then
    { message := "Request timed out: " ++ e.msg, should_retry := true }
  else if e.isClientConnError then
    { message := "ClientConnectionError: " ++ e.msg, should_retry := true }
  else if e.isClientError then
    { message := "ClientError: " ++ e.msg, should_retry := false }
  else
    { message := "Unexpected request failure: " ++ e.msg, should_retry := false }

/-- An exception as observed by callers of this component: either a raw
`ValueError` or the wrapped `ConnectionException`. -/
inductive PyErr where
  | valueError (msg : String) : PyErr
  | connectionError (e : ConnectionException) : PyErr
deriving DecidableEq

/-- The argument tuple `self._session.request(...)` is invoked with. -/
structure SessionCall where
  method : String
  url : String
  headers : List (String × String)
  data : Body
  json : Option String
  timeout : Nat
  ssl : Option Bool
  proxy : Option String
deriving DecidableEq

/-- The outcome of the underlying transport for one session call:
either an exception, or a response with status, headers, the chunk
sequence its content yields, and its decoded text. -/
inductive TransportResult where
  | raise (e : PyException) : TransportResult
  | ok (status : Nat) (headers : List (String × String))
      (chunks : List (List Nat)) (text : String) : TransportResult

/-- Structure `AioHttpResponse` as returned to the caller: status, optional
decoded text, headers. Modelled from the spec: the generic
`HttpResponse` base (not under `src/`); the raw-response handle is the
transport's and not modelled. -/
structure AioHttpResponse where
  status : Nat
  text : Option String
  headers : List (String × String)
deriving DecidableEq

/-- Everything observable about one `send_request_async` call: the
session call made (if any), the returned response or raised exception,
the chunks delivered to the streaming callback in order, and whether
the response connection was explicitly closed. -/
structure SendOutcome where
  sessionCall : Option SessionCall
  result : Except PyErr AioHttpResponse
  callbackChunks : List (List Nat)
  connectionReleased : Bool

/-- The `ssl=` argument of the session call, translated from the
source: `self._ssl if type(self._ssl) is bool else None`. -/
def sslArg (c : AioHttpHttpClient) : Option Bool :=
  match c.sslConf with
  | SslConfig.bool b => some b
  | _ => none

/-- The `proxy=` argument of the session call, translated from the
source: `self.return_proxy_url() if self._proxy is not None else None`;
resolution errors propagate as exceptions. -/
def proxyArg (c : AioHttpHttpClient) : Except String (Option String) :=
  match c.proxyConf with
  | ProxyConfig.pynone => Except.ok none
  | _ => (return_proxy_url c).map some

/-- The session call `send_request_async` builds for a prepared request
once the proxy argument is resolved. -/
def sessionCallOf (c : AioHttpHttpClient) (heap : Heap)
    (pr : AioHttpPreparedRequest) (t : Nat) (p : Option String) :
    SessionCall :=
  { method := pr.request.method
    url := pr.request.url
    headers := heapGet heap pr.headersRef
    data := pr.data
    json := pr.json
    timeout := t
    ssl := sslArg c
    proxy := p }

/-- Method `AioHttpHttpClient.send_request_async`, translated from the source.
The whole body runs inside one `try:` block, so a `ValueError` from
proxy resolution is caught by the final `except Exception` and wrapped;
an exception from the transport is classified by the `except` cascade.
On success the three response modes are selected in order: per-chunk
callback (consume chunks, close), non-streaming (decode text, close),
plain streaming (leave the body unconsumed and the connection open). -/
def send_request_async (c : AioHttpHttpClient) (heap : Heap)
    (pr : AioHttpPreparedRequest) (t : Nat)
    (transport : SessionCall → TransportResult) : SendOutcome :=
  match proxyArg c with
  | Except.error m =>
      { sessionCall := none
        result := Except.error (PyErr.connectionError (classifyException
          { msg := m, isTimeout := false, isClientConnError := false,
            isClientError := false }))
        callbackChunks := []
        connectionReleased := false }
  | Except.ok p =>
      let call := sessionCallOf c heap pr t p
      match transport call with
      | TransportResult.raise e =>
          { sessionCall := some call
            result := Except.error (PyErr.connectionError (classifyException e))
            callbackChunks := []
            connectionReleased := false }
      | TransportResult.ok st hs chunks txt =>
          if pr.request.stream_chunks then
            { sessionCall := some call
              result := Except.ok { status := st, text := none, headers := hs }
              callbackChunks := chunks
              connectionReleased := true }
          else if !pr.request.stream then
            { sessionCall := some call
              result := Except.ok { status := st, text := some txt, headers := hs }
              callbackChunks := []
              connectionReleased := true }
          else
            { sessionCall := some call
              result := Except.ok { status := st, text := none, headers := hs }
              callbackChunks := []
              connectionReleased := false }

theorem dictUpdate_single (m : List (String × String)) (k v : String) :
    dictUpdate m [(k, v)] = dictSet m k v := rfl

theorem dictLookup_dictSet_self (m : List (String × String)) (k v : String) :
    dictLookup (dictSet m k v) k = some v := by
  induction m with
  | nil => simp [dictLookup, dictSet]
  | cons p rest ih =>
    obtain ⟨k0, v0⟩ := p
    by_cases h : (k0 == k) = true
    · simp [dictSet, h, dictLookup]
    · simp only [dictSet, h, Bool.false_eq_true, if_false]
      simpa [dictLookup, List.find?, h] using ih

theorem heapGet_heapSet_self (h : Heap) (ref : Nat)
    (v : List (String × String)) (href : ref < List.length h) :
    heapGet (heapSet h ref v) ref = v := by
  simp [heapGet, heapSet, List.getD, List.getElem?_set_self, href]

/-- C2: proxy resolution uses a string configuration directly; for a
mapping it returns the "http" entry when present, else the "https"
entry when present, and fails with an invalid-configuration error when
neither key is present; any configuration that is neither string nor
mapping fails with an invalid-configuration error. -/
theorem return_proxy_url_resolution (s u : String)
    (m : List (String × String)) (t : String) :
    return_proxy_url (AioHttpHttpClient.init (ProxyConfig.str s) SslConfig.pynone)
      = Except.ok s
    ∧ (dictLookup m "http" = some u →
        return_proxy_url (AioHttpHttpClient.init (ProxyConfig.dict m) SslConfig.pynone)
          = Except.ok u)
    ∧ (dictLookup m "http" = none → dictLookup m "https" = some u →
        return_proxy_url (AioHttpHttpClient.init (ProxyConfig.dict m) SslConfig.pynone)
          = Except.ok u)
    ∧ (dictLookup m "http" = none → dictLookup m "https" = none →
        return_proxy_url (AioHttpHttpClient.init (ProxyConfig.dict m) SslConfig.pynone)
          = Except.error "No suitable proxy scheme found!")
    ∧ (∃ msg, return_proxy_url
          (AioHttpHttpClient.init (ProxyConfig.other t) SslConfig.pynone)
          = Except.error msg)
    ∧ (∃ msg, return_proxy_url
          (AioHttpHttpClient.init ProxyConfig.pynone SslConfig.pynone)
          = Except.error msg) := by
  refine ⟨rfl, ?_, ?_, ?_, ⟨_, rfl⟩, ⟨_, rfl⟩⟩
  · intro h
    simp [return_proxy_url, AioHttpHttpClient.init, h]
  · intro h1 h2
    simp [return_proxy_url, AioHttpHttpClient.init, h1, h2]
  · intro h1 h2
    simp [return_proxy_url, AioHttpHttpClient.init, h1, h2]

theorem return_proxy_url_resolution_witness :
    return_proxy_url
        (AioHttpHttpClient.init (ProxyConfig.dict [("https", "u")]) SslConfig.pynone)
      = Except.ok "u" :=
  (return_proxy_url_resolution "s" "u" [("https", "u")] "int").2.2.1
    (by decide) (by decide)

/-- C8: the created session honors ambient proxy environment variables
(`trust_env`) exactly when an explicit proxy configuration was supplied
at construction. -/
theorem init_trust_env (proxy : ProxyConfig) (verify_ssl : SslConfig) :
    ((AioHttpHttpClient.init proxy verify_ssl).session.trust_env = true)
      ↔ proxy ≠ ProxyConfig.pynone := by
  cases proxy <;> simp [AioHttpHttpClient.init]

/-- C4: with no (truthy) file attachments, preparation passes the raw
data payload and the JSON payload through unchanged, keeps the same
headers reference, and leaves the heap (hence the headers mapping)
untouched. -/
theorem prepare_request_no_files (boundary : String) (heap : Heap)
    (req : HttpRequest) (hf : truthyOpt req.files = false) :
    (prepare_request boundary heap req).1.data = Body.ofData req.data
    ∧ (prepare_request boundary heap req).1.json = req.json
    ∧ (prepare_request boundary heap req).1.headersRef = req.headersRef
    ∧ (prepare_request boundary heap req).2 = heap := by
  simp [prepare_request, prepare_data_buffer, AioHttpPreparedRequest.ofRequest, hf]

def reqPlain : HttpRequest :=
  { method := "POST", url := "https://example.test/x", headersRef := 0
    json := some "payload", data := some [("k", "v")], files := none
    stream := false, stream_chunks := false }

theorem prepare_request_no_files_witness :
    (prepare_request "b" [[("A", "1")]] reqPlain).1.data = Body.ofData reqPlain.data
    ∧ (prepare_request "b" [[("A", "1")]] reqPlain).1.json = reqPlain.json
    ∧ (prepare_request "b" [[("A", "1")]] reqPlain).1.headersRef = reqPlain.headersRef
    ∧ (prepare_request "b" [[("A", "1")]] reqPlain).2 = [[("A", "1")]] :=
  prepare_request_no_files "b" [[("A", "1")]] reqPlain (by decide)

/-- C3: with at least one (truthy) file attachment, preparation yields a
body that is the fully serialized multipart byte buffer over one
form-data part per file attachment and one per plain data field, an
empty JSON field, and merges the multipart-generated headers (the
content-type carrying the boundary) into the request's headers mapping. -/
theorem prepare_request_multipart (boundary : String) (heap : Heap)
    (req : HttpRequest) (hf : truthyOpt req.files = true)
    (href : req.headersRef < List.length heap) :
    (prepare_request boundary heap req).1.data
      = Body.buffer (serializeMultipart
          { boundary := boundary, parts := multipartParts req })
    ∧ (prepare_request boundary heap req).1.json = none
    ∧ heapGet (prepare_request boundary heap req).2 req.headersRef
      = dictUpdate (heapGet heap req.headersRef)
          (writerHeaders { boundary := boundary, parts := multipartParts req }) := by
  refine ⟨?_, ?_, ?_⟩ <;>
    simp [prepare_request, prepare_data_buffer, AioHttpPreparedRequest.ofRequest,
      hf, heapGet_heapSet_self _ _ _ href]

def reqFiles : HttpRequest :=
  { method := "POST", url := "https://example.test/up", headersRef := 0
    json := some "ignored", data := some [("k", "v")]
    files := some [("file", "abc")]
    stream := false, stream_chunks := false }

theorem prepare_request_multipart_witness :
    (prepare_request "B" [[("X", "1")]] reqFiles).1.data
      = Body.buffer (serializeMultipart
          { boundary := "B", parts := multipartParts reqFiles })
    ∧ (prepare_request "B" [[("X", "1")]] reqFiles).1.json = none
    ∧ heapGet (prepare_request "B" [[("X", "1")]] reqFiles).2 reqFiles.headersRef
      = dictUpdate (heapGet [[("X", "1")]] reqFiles.headersRef)
          (writerHeaders { boundary := "B", parts := multipartParts reqFiles }) :=
  prepare_request_multipart "B" [[("X", "1")]] reqFiles (by decide) (by decide)

/-- C9: with at least one (truthy) file attachment, preparation mutates
the original request's headers mapping in place: the prepared request
holds the same headers reference as the input request, the
multipart-generated headers are merged into that shared mapping, and
(when the mapping did not already carry that exact content-type) the
input request's headers do not remain unchanged after preparation. -/
theorem prepare_request_mutates_shared_headers (boundary : String)
    (heap : Heap) (req : HttpRequest)
    (hf : truthyOpt req.files = true)
    (href : req.headersRef < List.length heap)
    (hct : dictLookup (heapGet heap req.headersRef) "Content-Type"
            ≠ some ("multipart/form-data; boundary=" ++ boundary)) :
    (prepare_request boundary heap req).1.headersRef = req.headersRef
    ∧ heapGet (prepare_request boundary heap req).2 req.headersRef
      = dictSet (heapGet heap req.headersRef) "Content-Type"
          ("multipart/form-data; boundary=" ++ boundary)
    ∧ heapGet (prepare_request boundary heap req).2 req.headersRef
      ≠ heapGet heap req.headersRef := by
  have hres : heapGet (prepare_request boundary heap req).2 req.headersRef
      = dictSet (heapGet heap req.headersRef) "Content-Type"
        ("multipart/form-data; boundary=" ++ boundary) := by
    simp [prepare_request, prepare_data_buffer, AioHttpPreparedRequest.ofRequest,
      hf, heapGet_heapSet_self _ _ _ href, writerHeaders, dictUpdate_single]
  refine ⟨?_, hres, ?_⟩
  · simp [prepare_request, prepare_data_buffer, AioHttpPreparedRequest.ofRequest, hf]
  · intro heq
    apply hct
    rw [← heq, hres, dictLookup_dictSet_self]

theorem prepare_request_mutates_shared_headers_witness :
    (prepare_request "B" [[("X", "1")]] reqFiles).1.headersRef = reqFiles.headersRef
    ∧ heapGet (prepare_request "B" [[("X", "1")]] reqFiles).2 reqFiles.headersRef
      = dictSet (heapGet [[("X", "1")]] reqFiles.headersRef) "Content-Type"
          ("multipart/form-data; boundary=" ++ "B")
    ∧ heapGet (prepare_request "B" [[("X", "1")]] reqFiles).2 reqFiles.headersRef
      ≠ heapGet [[("X", "1")]] reqFiles.headersRef :=
  prepare_request_mutates_shared_headers "B" [[("X", "1")]] reqFiles
    (by decide) (by decide) (by decide)

/-- C1: when the transport raises, `send_request_async` re-raises the
single connection-failure type produced by the `except` cascade, whose
retry-eligibility flag is true exactly when the exception is an elapsed
timeout or a low-level connection failure, and false for any other
transport-library client error and any other unexpected exception. -/
theorem send_request_async_wraps_exceptions (c : AioHttpHttpClient)
    (heap : Heap) (pr : AioHttpPreparedRequest) (t : Nat)
    (e : PyException) (p : Option String)
    (hp : proxyArg c = Except.ok p) :
    (send_request_async c heap pr t (fun _ => TransportResult.raise e)).result
      = Except.error (PyErr.connectionError (classifyException e))
    ∧ (classifyException e).should_retry = (e.isTimeout || e.isClientConnError) := by
  constructor
  · simp [send_request_async, hp]
  · obtain ⟨msg, ht, hc, hl⟩ := e
    cases ht <;> cases hc <;> cases hl <;> simp [classifyException]

theorem send_request_async_wraps_exceptions_witness :
    (send_request_async (AioHttpHttpClient.init ProxyConfig.pynone SslConfig.pynone)
        [[]] (AioHttpPreparedRequest.ofRequest "B" reqPlain) 5
        (fun _ => TransportResult.raise
          { msg := "boom", isTimeout := true, isClientConnError := false,
            isClientError := false })).result
      = Except.error (PyErr.connectionError (classifyException
          { msg := "boom", isTimeout := true, isClientConnError := false,
            isClientError := false }))
    ∧ (classifyException
          { msg := "boom", isTimeout := true, isClientConnError := false,
            isClientError := false }).should_retry
      = (true || false) :=
  send_request_async_wraps_exceptions _ [[]] _ 5 _ none rfl

/-- C5: with a per-chunk streaming callback set, `send_request_async`
delivers to the callback exactly the received chunks in arrival order,
returns a response whose text field is absent, and explicitly releases
the underlying connection after consumption. -/
theorem send_request_async_streaming_callback (c : AioHttpHttpClient)
    (heap : Heap) (pr : AioHttpPreparedRequest) (t st : Nat)
    (hs : List (String × String)) (chunks : List (List Nat)) (txt : String)
    (p : Option String) (hp : proxyArg c = Except.ok p)
    (hcb : pr.request.stream_chunks = true) :
    (send_request_async c heap pr t
        (fun _ => TransportResult.ok st hs chunks txt)).callbackChunks = chunks
    ∧ (send_request_async c heap pr t
        (fun _ => TransportResult.ok st hs chunks txt)).result
      = Except.ok { status := st, text := none, headers := hs }
    ∧ (send_request_async c heap pr t
        (fun _ => TransportResult.ok st hs chunks txt)).connectionReleased
      = true := by
  refine ⟨?_, ?_, ?_⟩ <;> simp [send_request_async, hp, hcb]

def reqStreamCb : HttpRequest :=
  { method := "GET", url := "https://example.test/s", headersRef := 0
    json := none, data := none, files := none
    stream := false, stream_chunks := true }

theorem send_request_async_streaming_callback_witness :
    (send_request_async (AioHttpHttpClient.init ProxyConfig.pynone SslConfig.pynone)
        [[]] (AioHttpPreparedRequest.ofRequest "B" reqStreamCb) 5
        (fun _ => TransportResult.ok 200 [("H", "1")] [[104, 105], [33]] "hi!")).callbackChunks
      = [[104, 105], [33]]
    ∧ (send_request_async (AioHttpHttpClient.init ProxyConfig.pynone SslConfig.pynone)
        [[]] (AioHttpPreparedRequest.ofRequest "B" reqStreamCb) 5
        (fun _ => TransportResult.ok 200 [("H", "1")] [[104, 105], [33]] "hi!")).result
      = Except.ok { status := 200, text := none, headers := [("H", "1")] }
    ∧ (send_request_async (AioHttpHttpClient.init ProxyConfig.pynone SslConfig.pynone)
        [[]] (AioHttpPreparedRequest.ofRequest "B" reqStreamCb) 5
        (fun _ => TransportResult.ok 200 [("H", "1")] [[104, 105], [33]] "hi!")).connectionReleased
      = true :=
  send_request_async_streaming_callback _ [[]] _ 5 200 _ _ "hi!" none rfl (by decide)

/-- C10: when both the per-chunk streaming callback and the plain
streaming flag are set, `send_request_async` behaves in callback mode —
the callback receives every chunk, the connection is released, the
response's text is absent — so the plain streaming flag is ignored
whenever a callback is present. -/
theorem send_request_async_callback_overrides_stream (c : AioHttpHttpClient)
    (heap : Heap) (pr : AioHttpPreparedRequest) (t st : Nat)
    (hs : List (String × String)) (chunks : List (List Nat)) (txt : String)
    (p : Option String) (hp : proxyArg c = Except.ok p)
    (hcb : pr.request.stream_chunks = true)
    (_hstream : pr.request.stream = true) :
    (send_request_async c heap pr t
        (fun _ => TransportResult.ok st hs chunks txt)).callbackChunks = chunks
    ∧ (send_request_async c heap pr t
        (fun _ => TransportResult.ok st hs chunks txt)).result
      = Except.ok { status := st, text := none, headers := hs }
    ∧ (send_request_async c heap pr t
        (fun _ => TransportResult.ok st hs chunks txt)).connectionReleased
      = true := by
  refine ⟨?_, ?_, ?_⟩ <;> simp [send_request_async, hp, hcb]

def reqBothStream : HttpRequest :=
  { method := "GET", url := "https://example.test/s", headersRef := 0
    json := none, data := none, files := none
    stream := true, stream_chunks := true }

theorem send_request_async_callback_overrides_stream_witness :
    (send_request_async (AioHttpHttpClient.init ProxyConfig.pynone SslConfig.pynone)
        [[]] (AioHttpPreparedRequest.ofRequest "B" reqBothStream) 5
        (fun _ => TransportResult.ok 200 [] [[7]] "x")).callbackChunks = [[7]]
    ∧ (send_request_async (AioHttpHttpClient.init ProxyConfig.pynone SslConfig.pynone)
        [[]] (AioHttpPreparedRequest.ofRequest "B" reqBothStream) 5
        (fun _ => TransportResult.ok 200 [] [[7]] "x")).result
      = Except.ok { status := 200, text := none, headers := [] }
    ∧ (send_request_async (AioHttpHttpClient.init ProxyConfig.pynone SslConfig.pynone)
        [[]] (AioHttpPreparedRequest.ofRequest "B" reqBothStream) 5
        (fun _ => TransportResult.ok 200 [] [[7]] "x")).connectionReleased
      = true :=
  send_request_async_callback_overrides_stream _ [[]] _ 5 200 [] _ "x" none rfl
    (by decide) (by decide)

/-- C7: whenever the proxy argument resolves, the session request is
invoked with exactly one call whose `ssl` argument is the configured
boolean when the TLS configuration is a plain boolean and the session
default (`None`) otherwise, and whose `proxy` argument is omitted
(`None`) exactly when no proxy configuration was supplied. -/
theorem send_request_async_session_args (c : AioHttpHttpClient)
    (heap : Heap) (pr : AioHttpPreparedRequest) (t : Nat)
    (transport : SessionCall → TransportResult)
    (p : Option String) (hp : proxyArg c = Except.ok p) :
    (send_request_async c heap pr t transport).sessionCall
      = some (sessionCallOf c heap pr t p)
    ∧ (sessionCallOf c heap pr t p).ssl = sslArg c
    ∧ (∀ b, c.sslConf = SslConfig.bool b → sslArg c = some b)
    ∧ ((∀ b, c.sslConf ≠ SslConfig.bool b) → sslArg c = none)
    ∧ (c.proxyConf = ProxyConfig.pynone → p = none)
    ∧ (c.proxyConf ≠ ProxyConfig.pynone → p ≠ none) := by
  refine ⟨?_, rfl, ?_, ?_, ?_, ?_⟩
  · simp only [send_request_async, hp]
    cases htr : transport (sessionCallOf c heap pr t p) with
    | raise e => simp
    | ok st hs chunks txt =>
      by_cases h1 : pr.request.stream_chunks <;>
        by_cases h2 : pr.request.stream <;> simp [h1, h2]
  · intro b hb
    simp [sslArg, hb]
  · intro hb
    cases hssl : c.sslConf with
    | bool b => exact absurd hssl (hb b)
    | pynone => simp [sslArg, hssl]
    | path q => simp [sslArg, hssl]
  · intro hnone
    simp [proxyArg, hnone] at hp
    exact hp.symm
  · intro hnn hpn
    subst hpn
    cases hconf : c.proxyConf with
    | pynone => exact hnn hconf
    | str s =>
        simp [proxyArg, hconf, return_proxy_url, Except.map] at hp
    | dict m =>
        simp [proxyArg, hconf, return_proxy_url, Except.map] at hp
        rcases h1 : dictLookup m "http" with _ | u1
        · rcases h2 : dictLookup m "https" with _ | u2 <;>
            simp [h1, h2, Except.map] at hp
        · simp [h1, Except.map] at hp
    | other s =>
        simp [proxyArg, hconf, return_proxy_url, Except.map] at hp

def reqGet : HttpRequest :=
  { method := "GET", url := "https://example.test/x", headersRef := 0
    json := none, data := none, files := none
    stream := false, stream_chunks := false }

theorem send_request_async_session_args_witness :
    (send_request_async
        (AioHttpHttpClient.init ProxyConfig.pynone (SslConfig.bool false))
        [[]] (AioHttpPreparedRequest.ofRequest "B" reqGet) 5
        (fun _ => TransportResult.ok 200 [] [] "ok")).sessionCall
      = some (sessionCallOf
          (AioHttpHttpClient.init ProxyConfig.pynone (SslConfig.bool false))
          [[]] (AioHttpPreparedRequest.ofRequest "B" reqGet) 5 none)
    ∧ (sessionCallOf
          (AioHttpHttpClient.init ProxyConfig.pynone (SslConfig.bool false))
          [[]] (AioHttpPreparedRequest.ofRequest "B" reqGet) 5 none).ssl
      = sslArg (AioHttpHttpClient.init ProxyConfig.pynone (SslConfig.bool false))
    ∧ (∀ b, (AioHttpHttpClient.init ProxyConfig.pynone (SslConfig.bool false)).sslConf
            = SslConfig.bool b →
        sslArg (AioHttpHttpClient.init ProxyConfig.pynone (SslConfig.bool false))
          = some b)
    ∧ ((∀ b, (AioHttpHttpClient.init ProxyConfig.pynone (SslConfig.bool false)).sslConf
            ≠ SslConfig.bool b) →
        sslArg (AioHttpHttpClient.init ProxyConfig.pynone (SslConfig.bool false))
          = none)
    ∧ ((AioHttpHttpClient.init ProxyConfig.pynone (SslConfig.bool false)).proxyConf
          = ProxyConfig.pynone → (none : Option String) = none)
    ∧ ((AioHttpHttpClient.init ProxyConfig.pynone (SslConfig.bool false)).proxyConf
          ≠ ProxyConfig.pynone → (none : Option String) ≠ none) :=
  send_request_async_session_args _ [[]] _ 5 _ none rfl

/-- C6 counterexample: with a proxy configuration of invalid shape, the
configuration error is raised inside the `try:` block of
`send_request_async`, caught by the final `except Exception`, and so
the caller observes the single connection-failure type (non-retryable,
wrapped message) — not a configuration error distinct from it. -/
theorem send_request_async_invalid_proxy_is_wrapped :
    (send_request_async
        (AioHttpHttpClient.init (ProxyConfig.other "int") SslConfig.pynone)
        [[]] (AioHttpPreparedRequest.ofRequest "B" reqGet) 1
        (fun _ => TransportResult.ok 200 [] [] "ok")).result
      = Except.error (PyErr.connectionError
          { message := "Unexpected request failure: Invalid proxy type! Expected dict or string, got: int"
            should_retry := false }) := by
  rfl

/-- C6 (amended): every failure a caller observes from
`send_request_async` is the single connection-failure type; in
particular an invalid proxy shape (a configuration whose resolution
raises, supplied as non-`None`) surfaces as that type with retry flag
false and the unexpected-failure wrapped message, not as a distinct
configuration error. -/
theorem send_request_async_failures_single_type (c : AioHttpHttpClient)
    (heap : Heap) (pr : AioHttpPreparedRequest) (t : Nat)
    (transport : SessionCall → TransportResult) (err : PyErr)
    (herr : (send_request_async c heap pr t transport).result = Except.error err) :
    (∃ ce, err = PyErr.connectionError ce)
    ∧ (∀ m, return_proxy_url c = Except.error m →
        c.proxyConf ≠ ProxyConfig.pynone →
        err = PyErr.connectionError
          { message := "Unexpected request failure: " ++ m
            should_retry := false }) := by
  constructor
  · rcases hpa : proxyArg c with m | p
    · simp [send_request_async, hpa] at herr
      exact ⟨_, herr.symm⟩
    · simp only [send_request_async, hpa] at herr
      cases htr : transport (sessionCallOf c heap pr t p) with
      | raise e =>
          simp [htr] at herr
          exact ⟨_, herr.symm⟩
      | ok st hs chunks txt =>
          by_cases h1 : pr.request.stream_chunks <;>
            by_cases h2 : pr.request.stream <;> simp [htr, h1, h2] at herr
  · intro m hm hnn
    have hpa : proxyArg c = Except.error m := by
      cases hconf : c.proxyConf with
      | pynone => exact absurd hconf hnn
      | str s => simp [proxyArg, hconf, hm, Except.map]
      | dict l => simp [proxyArg, hconf, hm, Except.map]
      | other s => simp [proxyArg, hconf, hm, Except.map]
    simp [send_request_async, hpa, classifyException] at herr
    exact herr.symm

theorem send_request_async_failures_single_type_witness :
    (∃ ce, PyErr.connectionError
        { message := "Unexpected request failure: Invalid proxy type! Expected dict or string, got: int"
          should_retry := false } = PyErr.connectionError ce)
    ∧ (∀ m, return_proxy_url
          (AioHttpHttpClient.init (ProxyConfig.other "int") SslConfig.pynone)
          = Except.error m →
        (AioHttpHttpClient.init (ProxyConfig.other "int") SslConfig.pynone).proxyConf
          ≠ ProxyConfig.pynone →
        PyErr.connectionError
          { message := "Unexpected request failure: Invalid proxy type! Expected dict or string, got: int"
            should_retry := false }
          = PyErr.connectionError
              { message := "Unexpected request failure: " ++ m
                should_retry := false }) :=
  send_request_async_failures_single_type
    (AioHttpHttpClient.init (ProxyConfig.other "int") SslConfig.pynone)
    [[]] (AioHttpPreparedRequest.ofRequest "B" reqGet) 1
    (fun _ => TransportResult.ok 200 [] [] "ok") _ rfl
